import Mathlib

/-!
Verification development for the pyeagle EAGLE-CAD file library.

Shallow embedding conventions:
- Python floats are modelled as exact rationals (`ℚ`); all arithmetic the
  embedded code performs on them (+, -, *, /, min, max, abs, ceil) is exact.
- Fallible Python code (KeyError, ValueError, ZeroDivisionError,
  NotImplementedError, UnboundLocalError, TypeError) is modelled with
  `Except PyError`.
- lxml parse-tree nodes are modelled by the `XmlNode` tree; the xpath
  expressions actually used by the source (`'tag'`, `'drawing/tag'`,
  `'.//tag'`) are modelled by child filtering and document-order descendant
  traversal.
- Python dicts keyed by strings are modelled as insertion-ordered
  association lists with last-wins overwrite semantics (`dictUpdate`).
- Serialization of attribute values with `str()` / `css_encode` is not
  modelled; SVG fragments keep their numeric payloads as rationals and
  their styles as ordered key/value lists.
-/

/-- Python exception conditions raised by the embedded code. -/
inductive PyError where
  | keyError
  | valueError
  | zeroDivisionError
  | notImplementedError
  | unboundLocalError
  | typeError
deriving DecidableEq, Repr

instance {ε α : Type} [DecidableEq ε] [DecidableEq α] :
    DecidableEq (Except ε α) := fun x y =>
  match x, y with
  | .ok a, .ok b =>
    if h : a = b then .isTrue (by rw [h])
    else .isFalse (by intro hh; cases hh; exact h rfl)
  | .error a, .error b =>
    if h : a = b then .isTrue (by rw [h])
    else .isFalse (by intro hh; cases hh; exact h rfl)
  | .ok _, .error _ => .isFalse (by intro h; cases h)
  | .error _, .ok _ => .isFalse (by intro h; cases h)

/-- A parse-tree node as exposed by lxml: tag name, attribute mapping,
child nodes in document order, and optional text content. -/
structure XmlNode where
  tag : String
  attrib : List (String × String)
  children : List XmlNode
  text : Option String

/-- Model of `node.attrib.get(key)`: first (only) binding of an attribute. -/
def XmlNode.getOpt (n : XmlNode) (key : String) : Option String :=
  n.attrib.lookup key

/-- Model of `node.attrib[key]`: raises `KeyError` when the attribute is absent. -/
def XmlNode.getAttr (n : XmlNode) (key : String) : Except PyError String :=
  match n.attrib.lookup key with
  | some v => .ok v
  | none => .error .keyError

/-- Model of `node.xpath('t')` for a plain tag name: the children with that tag. -/
def XmlNode.childrenTagged (n : XmlNode) (t : String) : List XmlNode :=
  n.children.filter fun c => c.tag = t

/-- All strict descendants of the nodes of a list, in document order
(each node followed by its own subtree). -/
def descendantsList : List XmlNode → List XmlNode
  | [] => []
  | XmlNode.mk t a c x :: ns =>
    XmlNode.mk t a c x :: (descendantsList c ++ descendantsList ns)

/-- Model of `node.xpath('.//t')`: all strict descendants of `node` with tag `t`,
in document order. -/
def XmlNode.descendantsTagged (n : XmlNode) (t : String) : List XmlNode :=
  (descendantsList n.children).filter fun c => c.tag = t

/-- Model of `node.xpath('a/b')`: children tagged `b` of children tagged `a`. -/
def XmlNode.path2 (n : XmlNode) (a b : String) : List XmlNode :=
  (n.childrenTagged a).flatMap fun d => d.childrenTagged b

/-- Insert one key/value pair into a Python-dict model: overwrite in place
when the key is present, append otherwise. -/
def dictInsert {α : Type} (d : List (String × α)) (kv : String × α) :
    List (String × α) :=
  if d.any fun p => p.1 = kv.1 then
    d.map fun p => if p.1 = kv.1 then kv else p
  else
    d ++ [kv]

/-- Model of `d.update(a)` on Python dicts: fold `dictInsert` over the new pairs. -/
def dictUpdate {α : Type} (d a : List (String × α)) : List (String × α) :=
  a.foldl dictInsert d

/-- Model of `dict(a)`: build a dict from a pair list, last binding winning. -/
def pyDictOf {α : Type} (a : List (String × α)) : List (String × α) :=
  dictUpdate [] a

/-- Value of a nonempty digit string, most significant digit first. -/
def digitsVal (l : List Char) : Nat :=
  l.foldl (fun a c => a * 10 + (c.toNat - 48)) 0

/-- Whether a character list is a nonempty run of decimal digits. -/
def isDigits (l : List Char) : Bool :=
  !l.isEmpty && l.all fun c => c.isDigit

/-- Python `int(s)` on the character list of `s`: optional sign followed by
digits; anything else raises `ValueError`.  (Surrounding whitespace and
underscore separators, unused by the embedded code, are not modelled.) -/
def pyIntList (l : List Char) : Except PyError Int :=
  match l with
  | [] => .error .valueError
  | c :: rest =>
    if c = '-' then
      if isDigits rest then .ok (-(digitsVal rest : Int)) else .error .valueError
    else if c = '+' then
      if isDigits rest then .ok (digitsVal rest : Int) else .error .valueError
    else
      if isDigits (c :: rest) then .ok (digitsVal (c :: rest) : Int)
      else .error .valueError

/-- Python `int(s)`. -/
def pyInt (s : String) : Except PyError Int :=
  pyIntList s.toList

/-- Magnitude part of Python `float(s)`: digits with an optional decimal
point (`"1"`, `"1.5"`, `"1."`, `".5"`); exponent forms, which the parsed
documents do not use, are not modelled. -/
def pyFloatMag (l : List Char) : Except PyError ℚ :=
  let intPart := l.takeWhile fun c => c ≠ '.'
  let rest := l.dropWhile fun c => c ≠ '.'
  match rest with
  | [] =>
    if isDigits intPart then .ok (digitsVal intPart : ℚ) else .error .valueError
  | _ :: frac =>
    if (intPart.all fun c => c.isDigit) && (frac.all fun c => c.isDigit)
        && (!intPart.isEmpty || !frac.isEmpty) && !frac.any (fun c => c = '.') then
      .ok ((digitsVal intPart : ℚ) + (digitsVal frac : ℚ) / (10 : ℚ) ^ frac.length)
    else
      .error .valueError

/-- Python `float(s)`: optional sign and decimal magnitude. -/
def pyFloat (s : String) : Except PyError ℚ :=
  match s.toList with
  | '-' :: rest => (pyFloatMag rest).map Neg.neg
  | '+' :: rest => pyFloatMag rest
  | l => pyFloatMag l

/-- Python `int()` truncation of a float toward zero, as used by the `%d`
format conversions in the SVG fragment code. -/
def pyTruncInt (q : ℚ) : Int :=
  Int.tdiv q.num q.den

/-- Model of `math.ceil` on an exact rational. -/
def ratCeil (q : ℚ) : Int :=
  -(Int.fdiv (-q.num) q.den)

/-! ## colors.py -/

/-- The fixed EAGLE color-index table (`colors.eagle_to_rgb`). -/
def eagle_to_rgb : List (Nat × Nat × Nat) :=
  [(255, 255, 255), (75, 75, 165), (75, 165, 75), (75, 165, 165),
   (165, 75, 75), (165, 75, 165), (165, 165, 75), (165, 165, 165),
   (230, 230, 230), (75, 75, 255), (75, 255, 75), (75, 255, 255),
   (255, 75, 75), (255, 75, 255), (255, 255, 75), (75, 75, 75)]

/-- Model of `colors.default_color_rgb`. -/
def default_color_rgb : Nat × Nat × Nat := (165, 165, 165)

/-- Model of `colors.as_rgb`: Python list indexing, including the negative-index
wraparound semantics, falling back to the default on `IndexError`. -/
def as_rgb (number : Int) : Nat × Nat × Nat :=
  if 0 ≤ number ∧ number < 16 then
    (eagle_to_rgb.get? number.toNat).getD default_color_rgb
  else if -16 ≤ number ∧ number < 0 then
    (eagle_to_rgb.get? (number + 16).toNat).getD default_color_rgb
  else
    default_color_rgb

/-- Model of `colors.as_css`: format the rgb triple as a CSS color string. -/
def as_css (number : Int) : String :=
  "rgb(" ++ toString (as_rgb number).1 ++ ", " ++ toString (as_rgb number).2.1
    ++ ", " ++ toString (as_rgb number).2.2 ++ ")"

/-! ## layers.py -/

/-- A single EAGLE layer definition. -/
structure Layer where
  number : Int
  name : String
  color : Int
  visible : Bool
  active : Bool
deriving DecidableEq, Repr

/-- A set of layer definitions keyed by layer number (`LayerSet.layers`,
a dict from `int` layer number to `Layer`). -/
structure LayerSet where
  layers : List (Int × Layer)
deriving DecidableEq, Repr

/-- Dict lookup `self.layers[number]` as an `Option`. -/
def LayerSet.lookup (ls : LayerSet) (number : Int) : Option Layer :=
  ls.layers.lookup number

/-- The derived name-keyed lookup built by `LayerSet.__init__`. -/
def LayerSet.layersByName (ls : LayerSet) : List (String × Layer) :=
  pyDictOf (ls.layers.map fun p => (p.2.name, p.2))

/-- Model of `LayerSet.is_visible`: `self.layers[number]` (raising `KeyError` when
the number is unknown), then both flags. -/
def LayerSet.is_visible (ls : LayerSet) (number : Int) : Except PyError Bool :=
  match ls.lookup number with
  | none => .error .keyError
  | some layer => .ok (layer.active && layer.visible)

/-- Model of `LayerSet.get_css_color`: a CSS color string when the layer is visible,
Python's implicit `None` otherwise; `KeyError` when the number is unknown. -/
def LayerSet.get_css_color (ls : LayerSet) (number : Int) :
    Except PyError (Option String) :=
  match ls.is_visible number with
  | .error e => .error e
  | .ok true =>
    match ls.lookup number with
    | some layer => .ok (some (as_css layer.color))
    | none => .error .keyError
  | .ok false => .ok none

/-! ## geometry.py -/

/-- Layer-number constants from `geometry.py`. -/
def PADS_LAYER : Int := 17

def HOLES_LAYER : Int := 45

def SYMBOLS_LAYER : Int := 94

def PINS_LAYER : Int := 93

/-- A value in an inline CSS style dict, before `css_encode` serialization. -/
inductive StyleVal where
  | str (s : String)
  | num (q : ℚ)
  | int (n : Int)
deriving DecidableEq, Repr

/-- An inline style: the ordered key/value dict passed to `css_encode`. -/
abbrev Style : Type := List (String × StyleVal)

/-- One SVG shape element produced by `to_svg_fragments`.  Numeric
attributes are kept as exact rationals; polygon points and text transforms
keep the integer truncation applied by the `%d` conversions in the source. -/
inductive SvgFragment where
  | line (x1 y1 x2 y2 : ℚ) (style : Style)
  | rect (x y width height : ℚ) (style : Style)
  | circle (r cx cy : ℚ) (style : Style)
  | polygon (points : List (Int × Int)) (style : Style)
  | text (s : String) (x y : ℚ) (style : Style) (transform : Int × Int)
deriving DecidableEq

/-- Model of `Text` class constants: aspect ratio and baseline offset for Consolas. -/
def font_baseline_offset : ℚ := 0.25

def font_aspect_ratio : ℚ := 0.55

/-- Model of `Pin.pin_origin_radius`. -/
def pin_origin_radius : ℚ := 0.508

/-- The closed sum of geometry primitive variants (`Wire`, `SMD`, `Text`,
`Rectangle`, `Pad`, `Pin`, `Polygon`, `Hole`, `Circle`), holding exactly the
constructor fields of the corresponding Python classes. -/
inductive Primitive where
  | wire (x1 y1 x2 y2 width : ℚ) (layer : Int) (curve : Option ℚ)
      (cap : Option String)
  | smd (name : String) (x y dx dy : ℚ) (layer : Int)
  | text (s : String) (x y size : ℚ) (layer : Int) (ratio : Option ℚ)
  | rectangle (x1 y1 x2 y2 : ℚ) (layer : Int)
  | pad (name : String) (x y drill diameter : ℚ)
  | pin (name : String) (x y : ℚ) (length : String) (direction : Option String)
      (function : Option String) (rotate : Int) (visible : Bool)
  | polygon (width : ℚ) (layer : Int) (vertices : List (ℚ × ℚ))
  | hole (x y drill : ℚ)
  | circle (x y radius width : ℚ) (layer : Int)
deriving DecidableEq

/-- Model of `Pin.calculate_line_endpoint`: the far end of the directional line.
An unknown length keyword raises `KeyError` from the dict lookup; a rotation
outside {0, 90, 180, 270} leaves `end` unbound (`UnboundLocalError`). -/
def pinLineEndpoint (x y : ℚ) (length : String) (rotate : Int) :
    Except PyError (ℚ × ℚ) :=
  match (if length = "point" then some (0 : ℚ)
         else if length = "short" then some 1
         else if length = "middle" then some 2
         else if length = "long" then some 3
         else none) with
  | none => .error .keyError
  | some mult =>
    let len := mult * 2.54
    if rotate = 0 then .ok (x + len, y)
    else if rotate = 90 then .ok (x, y + len)
    else if rotate = 180 then .ok (x - len, y)
    else if rotate = 270 then .ok (x, y - len)
    else .error .unboundLocalError

/-- Model of `Pin.bounding_box`, branch for branch, including the `rotate == 90`
branch's `endx += self.x - self.pin_origin_radius` update.  The final
`else` models the implicit `None` return, which callers unpack (TypeError);
it is unreachable because `pinLineEndpoint` fails first. -/
def pinBoundingBox (x y : ℚ) (length : String) (rotate : Int) :
    Except PyError ((ℚ × ℚ) × (ℚ × ℚ)) :=
  match pinLineEndpoint x y length rotate with
  | .error e => .error e
  | .ok (endx, endy) =>
    if rotate = 0 then
      .ok ((x - pin_origin_radius, y - pin_origin_radius),
           (endx, endy + pin_origin_radius))
    else if rotate = 90 then
      .ok ((x - pin_origin_radius, y - pin_origin_radius),
           (endx + x - pin_origin_radius, endy))
    else if rotate = 180 then
      .ok ((endx, endy - pin_origin_radius),
           (x + pin_origin_radius, y + pin_origin_radius))
    else if rotate = 270 then
      .ok ((endx - pin_origin_radius, endy),
           (x + pin_origin_radius, y + pin_origin_radius))
    else .error .typeError

/-- Model of `Text.calculate_size`: height is the nominal size, width uses the fixed
aspect-ratio constant times the character count. -/
def textCalculateSize (s : String) (size scale : ℚ) : ℚ × ℚ :=
  let h := size * scale
  (h * font_aspect_ratio * (s.length : ℚ), h)

/-- Per-variant `bounding_box()`.  `Polygon` with no vertices models
Python's `min()` of an empty sequence (`ValueError`). -/
def primBoundingBox : Primitive → Except PyError ((ℚ × ℚ) × (ℚ × ℚ))
  | .wire x1 y1 x2 y2 width _ _ _ =>
    let pad := width / 2
    .ok ((min x1 x2 - pad, min y1 y2 - pad), (max x1 x2 + pad, max y1 y2 + pad))
  | .smd _ x y dx dy _ =>
    .ok ((x - dx / 2, y - dy / 2), (x + dx / 2, y + dy / 2))
  | .text s x y size _ _ =>
    let w := (textCalculateSize s size 1).1
    let h := (textCalculateSize s size 1).2
    let offset := font_baseline_offset * size
    .ok ((x, y - h + offset), (x + w, y + offset))
  | .rectangle x1 y1 x2 y2 _ =>
    .ok ((min x1 x2, min y1 y2), (max x1 x2, max y1 y2))
  | .pad _ x y _ diameter =>
    let margin := diameter / 2
    .ok ((x - margin, y - margin), (x + margin, y + margin))
  | .pin _ x y length _ _ rotate _ =>
    pinBoundingBox x y length rotate
  | .polygon width _ vertices =>
    match vertices with
    | [] => .error .valueError
    | v :: vs =>
      let margin := width / 2
      let minx := vs.foldl (fun a p => min a p.1) v.1
      let miny := vs.foldl (fun a p => min a p.2) v.2
      let maxx := vs.foldl (fun a p => max a p.1) v.1
      let maxy := vs.foldl (fun a p => max a p.2) v.2
      .ok ((minx - margin, miny - margin), (maxx + margin, maxy + margin))
  | .hole x y drill =>
    let margin := drill / 2
    .ok ((x - margin, y - margin), (x + margin, y + margin))
  | .circle x y radius width _ =>
    let margin := radius + width / 2
    .ok ((x - margin, y - margin), (x + margin, y + margin))

/-- Python truthiness of the `color` value tested by `if color:` in every
`to_svg_fragments` body (`None` and the empty string are falsy). -/
def isTruthy : Option String → Bool
  | none => false
  | some s => !(s = "")

/-- Model of `Wire.to_svg_fragments` style dict. -/
def wireStyle (color : String) (width scale : ℚ) : Style :=
  [("stroke", .str color), ("stroke-width", .num (width * scale)),
   ("stroke-linecap", .str "round")]

/-- Per-variant `to_svg_fragments(offset, scale, flip, layers)`.  Each body
first asks the layer set for the relevant color (raising `KeyError` on an
unknown layer number) and renders nothing when the color is falsy. -/
def primToSvgFragments (p : Primitive) (offset : ℚ × ℚ) (scale : ℚ)
    (flip : ℚ × ℚ) (layers : LayerSet) : Except PyError (List SvgFragment) :=
  let offx := offset.1
  let offy := offset.2
  let flipx := flip.1
  let flipy := flip.2
  match p with
  | .wire x1 y1 x2 y2 width layer _ _ =>
    match layers.get_css_color layer with
    | .error e => .error e
    | .ok color =>
      if isTruthy color then
        .ok [.line (((x1 * flipx) + offx) * scale) (((y1 * flipy) + offy) * scale)
               (((x2 * flipx) + offx) * scale) (((y2 * flipy) + offy) * scale)
               (wireStyle (color.getD "") width scale)]
      else .ok []
  | .smd _ x y dx dy layer =>
    match layers.get_css_color layer with
    | .error e => .error e
    | .ok color =>
      if isTruthy color then
        .ok [.rect (((x * flipx) + offx - (dx / 2)) * scale)
               (((y * flipy) + offy - (dy / 2)) * scale)
               (dx * scale) (dy * scale) [("fill", .str (color.getD ""))]]
      else .ok []
  | .text s x y size layer _ =>
    let nw := (textCalculateSize s size 1).1
    let nh := (textCalculateSize s size 1).2
    match layers.get_css_color layer with
    | .error e => .error e
    | .ok color =>
      if isTruthy color then
        let x0 := x * flipx
        let y0 := y * flipy
        let x1 := if flipx = -1 then x0 - 2 * nw else x0
        let y1 := if flipy = -1 then y0 + nh * 0.5
                  else if flipy = 1 then y0 - nh else y0
        .ok [.text s ((x1 + offx) * scale) ((y1 + offy) * scale)
               [("fill", .str (color.getD "")), ("font-size", .num (size * scale)),
                ("font-family", .str "Consolas")]
               (pyTruncInt flipx, pyTruncInt (-flipy))]
      else .ok []
  | .rectangle x1 y1 x2 y2 layer =>
    match layers.get_css_color layer with
    | .error e => .error e
    | .ok color =>
      if isTruthy color then
        let x := min (x1 * flipx) (x2 * flipx)
        let y := min (y1 * flipy) (y2 * flipy)
        .ok [.rect ((x + offx) * scale) ((y + offy) * scale)
               (|x2 - x1| * scale) (|y2 - y1| * scale)
               [("fill", .str (color.getD ""))]]
      else .ok []
  | .pad _ x y _ diameter =>
    match layers.get_css_color PADS_LAYER with
    | .error e => .error e
    | .ok color =>
      if isTruthy color then
        .ok [.circle ((diameter / 2) * scale) (((x * flipx) + offx) * scale)
               (((y * flipy) + offy) * scale)
               [("fill", .str (color.getD "")), ("stroke-width", .int 0)]]
      else .ok []
  | .pin _ x y length _ _ rotate _ =>
    match pinLineEndpoint x y length rotate with
    | .error e => .error e
    | .ok (endx, endy) =>
      match layers.get_css_color SYMBOLS_LAYER with
      | .error e => .error e
      | .ok color1 =>
        let lineFrags :=
          if isTruthy color1 then
            [SvgFragment.line (((x * flipx) + offx) * scale)
               (((y * flipy) + offy) * scale)
               (((endx * flipx) + offx) * scale) (((endy * flipy) + offy) * scale)
               [("stroke", .str (color1.getD "")), ("stroke-width", .int 1)]]
          else []
        match layers.get_css_color PINS_LAYER with
        | .error e => .error e
        | .ok color2 =>
          let circleFrags :=
            if isTruthy color2 then
              [SvgFragment.circle (pin_origin_radius * scale)
                 (((x * flipx) + offx) * scale) (((y * flipy) + offy) * scale)
                 [("stroke", .str (color2.getD "")), ("stroke-width", .int 1),
                  ("fill", .str "transparent")]]
            else []
          .ok (lineFrags ++ circleFrags)
  | .polygon width layer vertices =>
    match layers.get_css_color layer with
    | .error e => .error e
    | .ok color =>
      if isTruthy color then
        let points := vertices.map fun v =>
          (pyTruncInt (((v.1 * flipx) + offx) * scale),
           pyTruncInt (((v.2 * flipy) + offy) * scale))
        .ok [.polygon points
               [("fill", .str (color.getD "")), ("stroke", .str (color.getD "")),
                ("stroke-width", .num (width * scale))]]
      else .ok []
  | .hole x y drill =>
    match layers.get_css_color HOLES_LAYER with
    | .error e => .error e
    | .ok color =>
      if isTruthy color then
        .ok [.circle ((drill / 2) * scale) (((x * flipx) + offx) * scale)
               (((y * flipy) + offy) * scale)
               [("fill", .str "rgba(0, 0, 0, 0)"), ("stroke", .str (color.getD "")),
                ("stroke-width", .int 1)]]
      else .ok []
  | .circle x y radius width layer =>
    match layers.get_css_color layer with
    | .error e => .error e
    | .ok color =>
      if isTruthy color then
        .ok [.circle (radius * scale) (((x * flipx) + offx) * scale)
               (((y * flipy) + offy) * scale)
               [("fill", .str "rgba(0, 0, 0, 0)"), ("stroke", .str (color.getD "")),
                ("stroke-width", .num (width * scale))]]
      else .ok []

/-- The loop body of `Geometry.bounding_box`, threading the running
min/max accumulator (seeded at zero by the caller) through each
primitive's own bounding box. -/
def geometryBoundingBoxAux :
    List Primitive → (ℚ × ℚ) × (ℚ × ℚ) → Except PyError ((ℚ × ℚ) × (ℚ × ℚ))
  | [], acc => .ok acc
  | p :: ps, ((startx, starty), (endx, endy)) =>
    match primBoundingBox p with
    | .error e => .error e
    | .ok ((x1, y1), (x2, y2)) =>
      geometryBoundingBoxAux ps
        ((min startx x1, min starty y1), (max endx x2, max endy y2))

/-- Model of `Geometry.bounding_box`: the min/max reduction over the contained
primitives, with the accumulator initialized to `0` on all four
coordinates before the loop. -/
def geometryBoundingBox (ps : List Primitive) :
    Except PyError ((ℚ × ℚ) × (ℚ × ℚ)) :=
  geometryBoundingBoxAux ps ((0, 0), (0, 0))

/-- Model of `Geometry.to_svg_fragments`: concatenate every primitive's fragments
in container order, propagating the first failure. -/
def geometryToSvgFragments (ps : List Primitive) (offset : ℚ × ℚ) (scale : ℚ)
    (flip : ℚ × ℚ) (layers : LayerSet) : Except PyError (List SvgFragment) :=
  match ps with
  | [] => .ok []
  | p :: rest =>
    match primToSvgFragments p offset scale flip layers with
    | .error e => .error e
    | .ok fs =>
      match geometryToSvgFragments rest offset scale flip layers with
      | .error e => .error e
      | .ok gs => .ok (fs ++ gs)

/-! ## render.py -/

/-- The diagnostic bounding-box rectangle built by
`SVGRenderer.to_svg_bounding_box`. -/
def svgBoundingBoxRect (box : (ℚ × ℚ) × (ℚ × ℚ)) (scale : ℚ) (margin : Int) :
    SvgFragment :=
  .rect (margin : ℚ) (margin : ℚ)
    ((ratCeil ((box.2.1 - box.1.1) * scale) : Int) : ℚ)
    ((ratCeil ((box.2.2 - box.1.2) * scale) : Int) : ℚ)
    [("stroke-width", .int 1), ("stroke", .str "red"),
     ("fill", .str "rgba(255, 0, 0, 0.1)")]

/-- The root SVG document: the `width`/`height` attributes (integers, from
`math.ceil` plus the margin) and the child fragments. -/
structure SvgDoc where
  width : Int
  height : Int
  children : List SvgFragment
deriving DecidableEq

/-- Model of `SVGRenderer.make_svg_doc` on a geometry container: bounding box,
scaled size, flip-dependent offsets (reflecting about the opposite edge for
a `-1` flip multiplier), margin offset (`float(margin) / scale`, raising
`ZeroDivisionError` for a zero scale), delegated fragment generation, and
the root element sized `scaled_size + 2 * margin`. -/
def makeSvgDoc (ps : List Primitive) (layers : LayerSet) (scale : ℚ)
    (margin : Int) (flip : ℚ × ℚ) (add_bounding_box : Bool) :
    Except PyError SvgDoc :=
  match geometryBoundingBox ps with
  | .error e => .error e
  | .ok ((startx, starty), (endx, endy)) =>
    let native_width := endx - startx
    let native_height := endy - starty
    let scaled_width := ratCeil (native_width * scale)
    let scaled_height := ratCeil (native_height * scale)
    if scale = 0 then .error .zeroDivisionError
    else
      let offset_margin := (margin : ℚ) / scale
      let flipx := flip.1
      let flipy := flip.2
      let offsety := (if flipy = 1 then -starty
                      else if flipy = -1 then native_height + starty
                      else -starty) + offset_margin
      let offsetx := (if flipx = 1 then -startx
                      else if flipx = -1 then native_width + startx
                      else -startx) + offset_margin
      match geometryToSvgFragments ps (offsetx, offsety) scale flip layers with
      | .error e => .error e
      | .ok children =>
        .ok { width := scaled_width + 2 * margin,
              height := scaled_height + 2 * margin,
              children :=
                if add_bounding_box then
                  svgBoundingBoxRect ((startx, starty), (endx, endy)) scale margin
                    :: children
                else children }

/-! ## types.py -/

/-- Model of `settings_from_xml`: one `settings.update(node.attrib)` per `<setting>`
child — note the body reads the container node's attributes, not the
child's. -/
def settings_from_xml (node : XmlNode) : List (String × String) :=
  (node.children.filter fun c => c.tag = "setting").foldl
    (fun s _ => dictUpdate s node.attrib) []

/-- A package: a name plus its geometry container. -/
structure Package where
  name : String
  primitives : List Primitive
deriving DecidableEq

/-- An `<attribute>` entry of a technology. -/
structure Attribute where
  name : String
  value : String
  constant : Option String
deriving DecidableEq

/-- A `<technology>` entry of a device. -/
structure Technology where
  name : String
  attributes : List Attribute
deriving DecidableEq

/-- A device: name, resolved (or placeholder) package, and a name-keyed
technology dict. -/
structure Device where
  name : String
  package : Package
  technologies : List (String × Technology)
deriving DecidableEq

/-- Model of `Attribute.from_xml`: `name` and `value` are mandatory, `constant` is
kept only when present. -/
def attributeFromXml (node : XmlNode) : Except PyError Attribute :=
  match node.getAttr "name" with
  | .error e => .error e
  | .ok name =>
    match node.getAttr "value" with
    | .error e => .error e
    | .ok value => .ok ⟨name, value, node.attrib.lookup "constant"⟩

/-- Model of `Technology.from_xml`: name plus all `.//attribute` descendants. -/
def technologyFromXml (node : XmlNode) : Except PyError Technology :=
  match node.getAttr "name" with
  | .error e => .error e
  | .ok name =>
    match (node.descendantsTagged "attribute").mapM attributeFromXml with
    | .error e => .error e
    | .ok attrs => .ok ⟨name, attrs⟩

/-- The nodes matched by `node.xpath('.//technologies/technology')`. -/
def technologyNodes (node : XmlNode) : List XmlNode :=
  (node.descendantsTagged "technologies").flatMap fun t =>
    t.childrenTagged "technology"

/-- The technology list comprehension of `Device.from_xml`, propagating the
first parse failure. -/
def technologiesFromXml : List XmlNode → Except PyError (List Technology)
  | [] => .ok []
  | n :: ns =>
    match technologyFromXml n with
    | .error e => .error e
    | .ok t =>
      match technologiesFromXml ns with
      | .error e => .error e
      | .ok rest => .ok (t :: rest)

/-- Model of `Device.from_xml`: the package reference is looked up in the owning
library's package dict; a `KeyError` (missing `package` attribute or
unknown package name) degrades to the placeholder `Package(name='')`. -/
def deviceFromXml (node : XmlNode) (packages : List (String × Package)) :
    Except PyError Device :=
  match node.getAttr "name" with
  | .error e => .error e
  | .ok name =>
    let package :=
      match node.attrib.lookup "package" with
      | none => Package.mk "" []
      | some pname =>
        match packages.lookup pname with
        | none => Package.mk "" []
        | some p => p
    match technologiesFromXml (technologyNodes node) with
    | .error e => .error e
    | .ok techs =>
      .ok ⟨name, package, pyDictOf (techs.map fun t => (t.name, t))⟩

/-- The `rot` attribute decoding inlined in `Instance.from_xml`: an
`M`-prefixed string is mirrored and parses its angle from index 2, any
other string parses its angle from index 1. -/
def decodeRot (rot : List Char) : Except PyError (Bool × Int) :=
  match rot with
  | [] => .error .valueError
  | c :: rest =>
    if c = 'M' then
      match pyIntList (rest.drop 1) with
      | .error e => .error e
      | .ok n => .ok (true, n)
    else
      match pyIntList rest with
      | .error e => .error e
      | .ok n => .ok (false, n)

/-- A placed gate instance on a schematic sheet. -/
structure Instance where
  part : String
  gate : String
  x : ℚ
  y : ℚ
  smashed : Bool
  mirrored : Bool
  rotate : Int
deriving DecidableEq

/-- Model of `Instance.from_xml`: mandatory `part`/`gate`/`x`/`y`, `smashed` from
the exact token `yes`, and the rotation decoding with default `R0`. -/
def instanceFromXml (node : XmlNode) : Except PyError Instance :=
  match node.getAttr "part" with
  | .error e => .error e
  | .ok part =>
    match node.getAttr "gate" with
    | .error e => .error e
    | .ok gate =>
      match node.getAttr "x" with
      | .error e => .error e
      | .ok xs =>
        match pyFloat xs with
        | .error e => .error e
        | .ok x =>
          match node.getAttr "y" with
          | .error e => .error e
          | .ok ys =>
            match pyFloat ys with
            | .error e => .error e
            | .ok y =>
              let smashed := node.attrib.lookup "smashed" = some "yes"
              let rot := (node.attrib.lookup "rot").getD "R0"
              match decodeRot rot.toList with
              | .error e => .error e
              | .ok (mirrored, rotate) =>
                .ok ⟨part, gate, x, y, smashed, mirrored, rotate⟩

/-! ## pyeagle.open -/

/-- The three document classes `open` can dispatch to. -/
inductive DocKind where
  | library
  | schematic
  | board
deriving DecidableEq, Repr

/-- The document-kind selection loop of `pyeagle.open`: for each of
`library`, `schematic`, `board` in order, count the nodes matched by
`root.xpath('drawing/<tag>')` and dispatch to the first class whose count
is exactly one; raise `NotImplementedError` when no tag matches exactly
once.  (The per-kind `from_drawing_xml` constructors the dispatch hands the
drawing node to are modelled separately.) -/
def pyOpenKind (root : XmlNode) : Except PyError DocKind :=
  if (root.path2 "drawing" "library").length = 1 then .ok .library
  else if (root.path2 "drawing" "schematic").length = 1 then .ok .schematic
  else if (root.path2 "drawing" "board").length = 1 then .ok .board
  else .error .notImplementedError

/-! ## Spec-side definitions used for comparison -/

/-- The list of the contained primitives' own bounding boxes, propagating
the first failure. -/
def primBoundingBoxes : List Primitive → Except PyError (List ((ℚ × ℚ) × (ℚ × ℚ)))
  | [] => .ok []
  | p :: ps =>
    match primBoundingBox p with
    | .error e => .error e
    | .ok b =>
      match primBoundingBoxes ps with
      | .error e => .error e
      | .ok bs => .ok (b :: bs)

/-- One coordinate-wise min/max step of a bounding-box reduction. -/
def bboxStep (acc b : (ℚ × ℚ) × (ℚ × ℚ)) : (ℚ × ℚ) × (ℚ × ℚ) :=
  ((min acc.1.1 b.1.1, min acc.1.2 b.1.2),
   (max acc.2.1 b.2.1, max acc.2.2 b.2.2))

/-- Modelled from the spec's words for the container bounding box of a
container "holding at least one primitive": the pure coordinate-wise
min/max reduction over the contained primitives' own bounding boxes, with
no additional seed term (`none` for an empty container). -/
def specNoSeedReduction (ps : List Primitive) :
    Except PyError (Option ((ℚ × ℚ) × (ℚ × ℚ))) :=
  (primBoundingBoxes ps).map fun boxes =>
    match boxes with
    | [] => none
    | b :: bs => some (bs.foldl bboxStep b)

/-! ## Helper lemmas -/

theorem as_css_ne_empty (n : Int) : as_css n ≠ "" := by
  intro h
  have hlen := congrArg String.length h
  simp [as_css, String.length_append] at hlen
  exact absurd hlen.1.1.1.1.1.1 (by decide)

theorem geometryBoundingBoxAux_eq (ps : List Primitive)
    (acc : (ℚ × ℚ) × (ℚ × ℚ)) :
    geometryBoundingBoxAux ps acc =
      (primBoundingBoxes ps).map fun boxes => boxes.foldl bboxStep acc := by
  induction ps generalizing acc with
  | nil => rfl
  | cons p ps ih =>
    obtain ⟨⟨sx, sy⟩, ⟨ex, ey⟩⟩ := acc
    cases hp : primBoundingBox p with
    | error e =>
      simp [geometryBoundingBoxAux, primBoundingBoxes, hp, Except.map]
    | ok b =>
      obtain ⟨⟨x1, y1⟩, ⟨x2, y2⟩⟩ := b
      cases hm : primBoundingBoxes ps with
      | error e =>
        simp [geometryBoundingBoxAux, primBoundingBoxes, hp, ih, hm, Except.map]
      | ok boxes =>
        simp [geometryBoundingBoxAux, primBoundingBoxes, hp, ih, hm, bboxStep,
          Except.map, List.foldl_cons]

theorem foldl_const_iterate {α β : Type} (l : List β) (g : α → α) (s : α) :
    l.foldl (fun acc _ => g acc) s = Nat.iterate g l.length s := by
  induction l generalizing s with
  | nil => rfl
  | cons b l ih => simp [List.foldl_cons, ih, Function.iterate_succ_apply]

theorem pyIntList_of_digits (d : List Char) (hd : isDigits d = true) :
    pyIntList d = .ok (digitsVal d : Int) := by
  cases d with
  | nil => simp [isDigits] at hd
  | cons c rest =>
    have hc : c.isDigit = true := by
      simp [isDigits, List.all_cons] at hd
      exact hd.1
    have h1 : ¬(c = '-') := by rintro rfl; revert hc; decide
    have h2 : ¬(c = '+') := by rintro rfl; revert hc; decide
    simp [pyIntList, h1, h2, hd]

/-! ## Claims -/

/-- C3: the empty Geometry container reports bounding box ((0,0),(0,0))
exactly. -/
theorem c3_empty_container_bbox :
    geometryBoundingBox [] = .ok ((0, 0), (0, 0)) := rfl

/-- C2 counterexample: for the one-element container holding the rectangle
(1,1)-(2,2), the pure no-seed min/max reduction over the primitives' boxes
gives ((1,1),(2,2)), but `Geometry.bounding_box` returns ((0,0),(2,2)) —
the claimed seedless reduction does not hold for this nonempty container. -/
theorem c2_counterexample :
    specNoSeedReduction [Primitive.rectangle 1 1 2 2 1] =
      .ok (some ((1, 1), (2, 2))) ∧
    geometryBoundingBox [Primitive.rectangle 1 1 2 2 1] = .ok ((0, 0), (2, 2)) ∧
    geometryBoundingBox [Primitive.rectangle 1 1 2 2 1] ≠ .ok ((1, 1), (2, 2)) :=
  ⟨by decide, by decide, by decide⟩

/-- C2 (amended): for every Geometry container (including nonempty ones),
`bounding_box()` equals the coordinate-wise min/max reduction over the
contained primitives' own bounding boxes seeded with ((0,0),(0,0)): the
zero seed term always participates in the reduction. -/
theorem c2_container_bbox_is_seeded_reduction (ps : List Primitive) :
    geometryBoundingBox ps =
      (primBoundingBoxes ps).map fun boxes =>
        boxes.foldl bboxStep ((0, 0), (0, 0)) :=
  geometryBoundingBoxAux_eq ps ((0, 0), (0, 0))

/-- C5: `Pin.bounding_box` at position (-2.54, 0) with rotation 90 and
length `middle` returns a box whose max-x is smaller than its min-x and
which excludes the origin-marker disk (pin x + radius = -2.032 lies to the
right of the returned max-x), contradicting the claimed min ≤ max and
disk-containment properties. -/
theorem c5_pin_bbox_rot90_bug :
    pinBoundingBox (-2.54) 0 "middle" 90 =
      .ok ((-381/125, -127/250), (-1397/250, 127/25)) ∧
    (-1397/250 : ℚ) < -381/125 ∧
    (-1397/250 : ℚ) < -2.54 + pin_origin_radius := by
  refine ⟨?_, by norm_num, by norm_num [pin_origin_radius]⟩
  norm_num +decide [pinBoundingBox, pinLineEndpoint, pin_origin_radius]

/-- C4: for a wire on a layer present in the layer set, the fragment list
is exactly one line with endpoints ((coordinate * flip) + offset) * scale
per axis when the layer is active and visible, and empty when either flag
is false. -/
theorem c4_wire_fragment_visibility_gating
    (x1 y1 x2 y2 w : ℚ) (n : Int) (curve : Option ℚ) (cap : Option String)
    (ox oy scale fx fy : ℚ) (ls : LayerSet) (l : Layer)
    (hl : ls.lookup n = some l) :
    (l.active = true → l.visible = true →
      primToSvgFragments (.wire x1 y1 x2 y2 w n curve cap) (ox, oy) scale
          (fx, fy) ls =
        .ok [SvgFragment.line (((x1 * fx) + ox) * scale)
          (((y1 * fy) + oy) * scale) (((x2 * fx) + ox) * scale)
          (((y2 * fy) + oy) * scale) (wireStyle (as_css l.color) w scale)]) ∧
    (l.active = false ∨ l.visible = false →
      primToSvgFragments (.wire x1 y1 x2 y2 w n curve cap) (ox, oy) scale
          (fx, fy) ls = .ok []) := by
  constructor
  · intro ha hv
    have hc : ls.get_css_color n = .ok (some (as_css l.color)) := by
      simp [LayerSet.get_css_color, LayerSet.is_visible, hl, ha, hv]
    simp [primToSvgFragments, hc, isTruthy, as_css_ne_empty l.color]
  · intro h
    have hb : (l.active && l.visible) = false := by
      cases h with
      | inl h => simp [h]
      | inr h => simp [h]
    have hc : ls.get_css_color n = .ok none := by
      simp [LayerSet.get_css_color, LayerSet.is_visible, hl, hb]
    simp [primToSvgFragments, hc, isTruthy]

/-- Concrete layer used by the C4 witness. -/
def w4Layer : Layer := ⟨91, "Nets", 2, true, true⟩

/-- Concrete layer set used by the C4 witness. -/
def w4Ls : LayerSet := ⟨[(91, w4Layer)]⟩

theorem c4_witness :
    w4Ls.lookup 91 = some w4Layer ∧
    primToSvgFragments (.wire 1 2 3 4 2 91 none none) (10, 12) 2 (1, -1) w4Ls =
      .ok [SvgFragment.line 22 20 26 16 (wireStyle (as_css 2) 2 2)] := by
  refine ⟨by decide, ?_⟩
  have h := (c4_wire_fragment_visibility_gating 1 2 3 4 2 91 none none 10 12 2
    1 (-1) w4Ls w4Layer (by decide)).1 rfl rfl
  norm_num [w4Layer] at h
  exact h

/-- C9: when a layer number is absent from the layer set, `is_visible` and
`get_css_color` raise `KeyError`, and rendering any primitive assigned to
that layer fails with `KeyError` instead of producing zero fragments. -/
theorem c9_missing_layer_raises
    (ls : LayerSet) (n : Int) (hl : ls.lookup n = none)
    (x1 y1 x2 y2 w : ℚ) (curve : Option ℚ) (cap : Option String)
    (name s : String) (x y dx dy size radius : ℚ) (ratio : Option ℚ)
    (vs : List (ℚ × ℚ)) (off : ℚ × ℚ) (scale : ℚ) (flip : ℚ × ℚ) :
    ls.is_visible n = .error .keyError ∧
    ls.get_css_color n = .error .keyError ∧
    primToSvgFragments (.wire x1 y1 x2 y2 w n curve cap) off scale flip ls =
      .error .keyError ∧
    primToSvgFragments (.smd name x y dx dy n) off scale flip ls =
      .error .keyError ∧
    primToSvgFragments (.text s x y size n ratio) off scale flip ls =
      .error .keyError ∧
    primToSvgFragments (.rectangle x1 y1 x2 y2 n) off scale flip ls =
      .error .keyError ∧
    primToSvgFragments (.polygon w n vs) off scale flip ls =
      .error .keyError ∧
    primToSvgFragments (.circle x y radius w n) off scale flip ls =
      .error .keyError := by
  have hv : ls.is_visible n = .error .keyError := by
    simp [LayerSet.is_visible, hl]
  have hc : ls.get_css_color n = .error .keyError := by
    simp [LayerSet.get_css_color, hv]
  exact ⟨hv, hc, by simp [primToSvgFragments, hc], by simp [primToSvgFragments, hc],
    by simp [primToSvgFragments, hc], by simp [primToSvgFragments, hc],
    by simp [primToSvgFragments, hc], by simp [primToSvgFragments, hc]⟩

theorem c9_witness :
    LayerSet.lookup ⟨[]⟩ 5 = none ∧
    primToSvgFragments (.wire 0 0 1 1 1 5 none none) (0, 0) 1 (1, -1) ⟨[]⟩ =
      .error .keyError :=
  ⟨rfl, (c9_missing_layer_raises ⟨[]⟩ 5 rfl 0 0 1 1 1 none none "" "" 0 0 0 0 0
    0 none [] (0, 0) 1 (1, -1)).2.2.1⟩

/-- C10: `settings_from_xml` performs one copy of the container node's own
attributes per `<setting>` child (so no children yields the empty dict
regardless of the node's attributes), and its result depends only on the
container's attributes and the number of `<setting>` children — the
children's own attributes are never read. -/
theorem c10_settings_copy_parent_attrib (node : XmlNode) :
    settings_from_xml node =
      Nat.iterate (fun s => dictUpdate s node.attrib)
        ((node.children.filter fun c => c.tag = "setting").length) [] ∧
    ∀ other : XmlNode, other.attrib = node.attrib →
      (other.children.filter fun c => c.tag = "setting").length =
        (node.children.filter fun c => c.tag = "setting").length →
      settings_from_xml other = settings_from_xml node := by
  have key : ∀ m : XmlNode, settings_from_xml m =
      Nat.iterate (fun s => dictUpdate s m.attrib)
        ((m.children.filter fun c => c.tag = "setting").length) [] :=
    fun m => foldl_const_iterate _ _ _
  refine ⟨key node, fun other ha hc => ?_⟩
  rw [key other, key node, ha, hc]

/-- Settings node used by the C10 witness. -/
def w10NodeA : XmlNode :=
  ⟨"settings", [("alwaysvectorfont", "no")],
    [⟨"setting", [("verticaltext", "up")], [], none⟩], none⟩

/-- Same parent attributes and `<setting>` child count as `w10NodeA`, but a
different attribute on the child. -/
def w10NodeB : XmlNode :=
  ⟨"settings", [("alwaysvectorfont", "no")],
    [⟨"setting", [("acl", "nonsense")], [], none⟩], none⟩

theorem c10_witness :
    settings_from_xml w10NodeB = settings_from_xml w10NodeA :=
  (c10_settings_copy_parent_attrib w10NodeA).2 w10NodeB rfl rfl

/-- Instance node carrying the literally-M-prefixed rotation "M270". -/
def c8Node : XmlNode :=
  ⟨"instance", [("part", "U1"), ("gate", "G$1"), ("x", "0"), ("y", "0"),
    ("rot", "M270")], [], none⟩

/-- C8 counterexample: the rot attribute "M270" (the claimed mirrored form
"M<degrees>" with degrees = 270) decodes to mirrored with rotation
angle 70, not 270: the parse skips two leading characters. -/
theorem c8_counterexample :
    instanceFromXml c8Node = .ok ⟨"U1", "G$1", 0, 0, false, true, 70⟩ ∧
    (70 : Int) ≠ 270 :=
  ⟨by decide, by decide⟩

/-- C8 (amended): a rot attribute "R<degrees>" decodes to
non-mirrored with the given angle; a mirrored rot attribute parses its
angle from index 2, so the form actually decoded as mirrored-with-angle is
"MR<degrees>"; a missing rot attribute decodes to non-mirrored with
angle 0. -/
theorem c8_rot_decoding (node : XmlNode) (part gate xs ys : String)
    (x y : ℚ) (d : List Char)
    (hp : node.attrib.lookup "part" = some part)
    (hg : node.attrib.lookup "gate" = some gate)
    (hxs : node.attrib.lookup "x" = some xs) (hx : pyFloat xs = .ok x)
    (hys : node.attrib.lookup "y" = some ys) (hy : pyFloat ys = .ok y)
    (hd : isDigits d = true) :
    (node.attrib.lookup "rot" = some (String.mk ('R' :: d)) →
      instanceFromXml node = .ok ⟨part, gate, x, y,
        node.attrib.lookup "smashed" = some "yes", false, (digitsVal d : Int)⟩) ∧
    (node.attrib.lookup "rot" = some (String.mk ('M' :: 'R' :: d)) →
      instanceFromXml node = .ok ⟨part, gate, x, y,
        node.attrib.lookup "smashed" = some "yes", true, (digitsVal d : Int)⟩) ∧
    (node.attrib.lookup "rot" = none →
      instanceFromXml node = .ok ⟨part, gate, x, y,
        node.attrib.lookup "smashed" = some "yes", false, 0⟩) := by
  refine ⟨fun hrot => ?_, fun hrot => ?_, fun hrot => ?_⟩
  · simp [instanceFromXml, XmlNode.getAttr, hp, hg, hxs, hx, hys, hy, hrot,
      String.toList, decodeRot, pyIntList_of_digits d hd]
  · simp [instanceFromXml, XmlNode.getAttr, hp, hg, hxs, hx, hys, hy, hrot,
      String.toList, decodeRot, pyIntList_of_digits d hd]
  · simp +decide [instanceFromXml, XmlNode.getAttr, hp, hg, hxs, hx, hys, hy,
      hrot, String.toList, decodeRot, pyIntList, isDigits, digitsVal]

/-- Instance node with the EAGLE-style mirrored rotation "MR90", used by
the C8 witness. -/
def w8Node : XmlNode :=
  ⟨"instance", [("part", "U1"), ("gate", "G$1"), ("x", "0"), ("y", "0"),
    ("rot", "MR90")], [], none⟩

theorem c8_witness :
    instanceFromXml w8Node = .ok ⟨"U1", "G$1", 0, 0, false, true, 90⟩ := by
  have h := (c8_rot_decoding w8Node "U1" "G$1" "0" "0" 0 0 ['9', '0'] rfl rfl
    rfl (by decide) rfl (by decide) (by decide)).2.1 rfl
  simpa using h

/-- C6: a device node whose `package` attribute names a package absent from
the owning library's package mapping still constructs, with the placeholder
empty package named by the empty string and holding no primitives. -/
theorem c6_device_package_fallback (node : XmlNode)
    (packages : List (String × Package)) (nm pn : String)
    (hn : node.attrib.lookup "name" = some nm)
    (hp : node.attrib.lookup "package" = some pn)
    (habs : packages.lookup pn = none)
    (ts : List Technology)
    (ht : technologiesFromXml (technologyNodes node) = .ok ts) :
    deviceFromXml node packages =
      .ok ⟨nm, ⟨"", []⟩, pyDictOf (ts.map fun t => (t.name, t))⟩ := by
  simp [deviceFromXml, XmlNode.getAttr, hn, hp, habs, ht]

/-- Device node referencing the unknown package "PKG-MISSING", used by the
C6 witness. -/
def w6Node : XmlNode :=
  ⟨"device", [("name", "D"), ("package", "PKG-MISSING")],
    [⟨"technologies", [], [⟨"technology", [("name", "")], [], none⟩], none⟩],
    none⟩

theorem c6_witness :
    deviceFromXml w6Node [("OTHER", ⟨"OTHER", []⟩)] =
      .ok ⟨"D", ⟨"", []⟩, [("", ⟨"", []⟩)]⟩ := by
  have ht : technologiesFromXml (technologyNodes w6Node) = .ok [⟨"", []⟩] := by
    simp [technologyNodes, XmlNode.descendantsTagged, descendantsList, w6Node,
      XmlNode.childrenTagged, technologiesFromXml, technologyFromXml,
      attributeFromXml, XmlNode.getAttr, List.mapM, List.mapM.loop, pure,
      Except.pure]
  have h := c6_device_package_fallback w6Node [("OTHER", ⟨"OTHER", []⟩)] "D"
    "PKG-MISSING" rfl rfl (by decide) [⟨"", []⟩] ht
  simpa using h

/-- A structurally well-formed drawing whose root holds both a library and
a schematic child, used by the C1 counterexample. -/
def c1Root : XmlNode :=
  ⟨"eagle", [],
    [⟨"drawing", [],
      [⟨"settings", [], [], none⟩, ⟨"grid", [("style", "lines")], [], none⟩,
       ⟨"layers", [], [], none⟩, ⟨"library", [], [], none⟩,
       ⟨"schematic", [], [], none⟩], none⟩], none⟩

/-- C1 counterexample: a drawing with one `library` and one `schematic`
child (two recognized tags present) is dispatched to `Library` instead of
failing with the UnsupportedDocumentKind condition. -/
theorem c1_counterexample :
    (c1Root.path2 "drawing" "library").length = 1 ∧
    (c1Root.path2 "drawing" "schematic").length = 1 ∧
    pyOpenKind c1Root = .ok .library := by decide

/-- C1 (amended): `open` dispatches to the first kind in the priority
order library, schematic, board whose tag occurs exactly once under the
drawing node, and raises `NotImplementedError` exactly when none of the
three tags occurs exactly once — additional recognized tags later in the
priority order do not cause a failure. -/
theorem c1_open_kind_selection (root : XmlNode) :
    (pyOpenKind root = .ok .library ↔
      (root.path2 "drawing" "library").length = 1) ∧
    (pyOpenKind root = .ok .schematic ↔
      ((root.path2 "drawing" "library").length ≠ 1 ∧
        (root.path2 "drawing" "schematic").length = 1)) ∧
    (pyOpenKind root = .ok .board ↔
      ((root.path2 "drawing" "library").length ≠ 1 ∧
        (root.path2 "drawing" "schematic").length ≠ 1 ∧
        (root.path2 "drawing" "board").length = 1)) ∧
    (pyOpenKind root = .error .notImplementedError ↔
      ((root.path2 "drawing" "library").length ≠ 1 ∧
        (root.path2 "drawing" "schematic").length ≠ 1 ∧
        (root.path2 "drawing" "board").length ≠ 1)) := by
  unfold pyOpenKind
  split_ifs with h1 h2 h3 <;> simp_all

/-- C7: rendering the same container with flip (1,-1) and flip (-1,1)
produces documents with identical width and height attributes, each equal
to ceil(native_size * scale) + 2 * margin on its axis. -/
theorem c7_flip_size_invariance (ps : List Primitive) (ls : LayerSet)
    (scale : ℚ) (margin : Int) (b : Bool) (sx sy ex ey : ℚ) (d1 d2 : SvgDoc)
    (hbb : geometryBoundingBox ps = .ok ((sx, sy), (ex, ey)))
    (h1 : makeSvgDoc ps ls scale margin (1, -1) b = .ok d1)
    (h2 : makeSvgDoc ps ls scale margin (-1, 1) b = .ok d2) :
    d1.width = d2.width ∧ d1.height = d2.height ∧
    d1.width = ratCeil ((ex - sx) * scale) + 2 * margin ∧
    d1.height = ratCeil ((ey - sy) * scale) + 2 * margin := by
  unfold makeSvgDoc at h1 h2
  simp only [hbb] at h1 h2
  by_cases hs : scale = 0
  · rw [if_pos hs] at h1
    exact absurd h1 (by simp)
  · rw [if_neg hs] at h1
    rw [if_neg hs] at h2
    split at h1
    · exact absurd h1 (by simp)
    · split at h2
      · exact absurd h2 (by simp)
      · injection h1 with h1
        injection h2 with h2
        subst h1
        subst h2
        exact ⟨rfl, rfl, rfl, rfl⟩

theorem c7_witness :
    (⟨20, 20, []⟩ : SvgDoc).width = (⟨20, 20, []⟩ : SvgDoc).width ∧
    (⟨20, 20, []⟩ : SvgDoc).height = (⟨20, 20, []⟩ : SvgDoc).height ∧
    (⟨20, 20, []⟩ : SvgDoc).width = ratCeil ((0 - 0) * 1) + 2 * 10 ∧
    (⟨20, 20, []⟩ : SvgDoc).height = ratCeil ((0 - 0) * 1) + 2 * 10 := by
  have hd : ∀ f : ℚ × ℚ, makeSvgDoc [] ⟨[]⟩ 1 10 f false = .ok ⟨20, 20, []⟩ := by
    intro f
    have hr : ratCeil 0 = 0 := by decide
    simp [makeSvgDoc, geometryBoundingBox, geometryBoundingBoxAux,
      geometryToSvgFragments, hr]
  exact c7_flip_size_invariance [] ⟨[]⟩ 1 10 false 0 0 0 0 ⟨20, 20, []⟩
    ⟨20, 20, []⟩ rfl (hd (1, -1)) (hd (-1, 1))
